import Mathlib

/-!
Verification of the PKI action model (ui/app/models/pki/action.js).

The file embeds, as executable Lean definitions, the data model declared by
PkiActionModel: the attribute set with its declared default values, the
validations map (presence rules for type and commonName, reserved-value
validator functions for issuerName and keyName), and the four capability
getters that extract a strict-equality boolean from a permissions oracle.
Parts of the evaluation machinery live outside the provided source tree
(the withModelValidations decorator, the presence validator utility and the
lazy-capabilities macro); those are modelled from the spec and marked as
such in their doc comments.
-/

namespace PkiAction

/-- Shallow embedding of the PkiActionModel record. Every field carries an
Option value: none models a JavaScript undefined attribute, some v an
attribute set to v. Field names follow the source declarations; only the
attributes the verified properties mention are included. -/
structure ActionConfig where
  actionType : Option String := none
  type : Option String := none
  commonName : Option String := none
  issuerName : Option String := none
  keyName : Option String := none
  keyRef : Option String := none
  pemBundle : Option String := none
  format : Option String := none
  privateKeyFormat : Option String := none
  keyType : Option String := none
  keyBits : Option String := none
  maxPathLength : Option Int := none
  excludeCnFromSans : Option Bool := none
  addBasicConstraints : Option Bool := none
  notBeforeDuration : Option String := none
  ttl : Option String := none
  deriving Repr, DecidableEq

/-- A freshly created record: each attribute holds exactly the defaultValue
declared in its attr options in the source, and every attribute declared
without a defaultValue is unset. -/
def freshRecord : ActionConfig where
  keyRef := some "default"
  format := some "pem"
  privateKeyFormat := some "der"
  keyType := some "rsa"
  keyBits := some "0"
  maxPathLength := some (-1)
  excludeCnFromSans := some false
  notBeforeDuration := some "30s"

/-- The two kinds of validation failure the model can produce. -/
inductive FailureKind where
  | MissingRequiredField
  | ReservedValue
  deriving Repr, DecidableEq

/-- One per-field validation failure. -/
structure Failure where
  field : String
  kind : FailureKind
  deriving Repr, DecidableEq

/-- Modelled from the spec: the presence validator applied by the
withModelValidations decorator (code not under the provided source tree)
treats a value as present exactly when it is neither absent nor the empty
string. -/
def present : Option String → Bool
  | none => false
  | some s => !(s == "")

/-- The issuerName validator function from the source: it rejects exactly
when actionType is generate-root or rotate-root and issuerName is the
string default. -/
def issuerNameValidator (m : ActionConfig) : Bool :=
  if (m.actionType == some "generate-root" || m.actionType == some "rotate-root")
      && m.issuerName == some "default" then false
  else true

/-- The keyName validator function from the source: it rejects exactly when
keyName is the string default, for every actionType. -/
def keyNameValidator (m : ActionConfig) : Bool :=
  if m.keyName == some "default" then false else true

/-- The validations map of the source, run rule by rule: the two presence
rules yield MissingRequiredField failures and the two validator functions
yield ReservedValue failures, each attached to its own field. The iteration
over the map is the work of the withModelValidations decorator, modelled
from the spec; the rules themselves are the source validations object. -/
def validate (m : ActionConfig) : List Failure :=
  (if present m.type then [] else [{ field := "type", kind := .MissingRequiredField }])
    ++ (if present m.commonName then []
        else [{ field := "commonName", kind := .MissingRequiredField }])
    ++ (if issuerNameValidator m then []
        else [{ field := "issuerName", kind := .ReservedValue }])
    ++ (if keyNameValidator m then []
        else [{ field := "keyName", kind := .ReservedValue }])

/-- Whether validation reports some failure of kind k for the given field. -/
def reportsFailure (m : ActionConfig) (fld : String) (k : FailureKind) : Bool :=
  (validate m).any fun f => f.field == fld && f.kind == k

/-- Whether validation reports any failure at all for the given field. -/
def hasFailureFor (m : ActionConfig) (fld : String) : Bool :=
  (validate m).any fun f => f.field == fld

/-- A record is valid exactly when validation produces no failure. -/
def isValid (m : ActionConfig) : Bool :=
  (validate m).isEmpty

/-- Modelled from the spec: running the evaluator is side-effect-free, so a
run returns the record unchanged next to the failure list. The validator
functions of the source only read model fields. -/
def runValidate (m : ActionConfig) : ActionConfig × List Failure :=
  (m, validate m)

/-- A JavaScript value read from the canCreate property of a capability
proxy. -/
inductive JsValue where
  | jsTrue
  | jsFalse
  | jsUndefined
  | jsString (s : String)
  deriving Repr, DecidableEq

/-- Outcome of the permissions oracle resolving one capability path. -/
inductive OracleOutcome where
  | resolved (canCreate : JsValue)
  | pending
  | failed
  deriving Repr, DecidableEq

/-- The permissions oracle, keyed by resource path. -/
def Oracle := String → OracleOutcome

/-- Path template for importBundlePath from the source. -/
def importBundlePath (backend : String) : String :=
  backend ++ "/issuers/import/bundle"

/-- Path template for generateIssuerRootPath from the source. -/
def generateIssuerRootPath (backend ty : String) : String :=
  backend ++ "/issuers/generate/root/" ++ ty

/-- Path template for generateIssuerCsrPath from the source. -/
def generateIssuerCsrPath (backend ty : String) : String :=
  backend ++ "/issuers/generate/intermediate/" ++ ty

/-- Path template for crossSignPath from the source. -/
def crossSignPath (backend : String) : String :=
  backend ++ "/issuers/cross-sign"

/-- Modelled from the spec: reading canCreate through the lazy-capabilities
proxy (code not under the provided source tree) yields undefined while the
lookup is pending or after it failed; no exception is raised. -/
def getCanCreate : OracleOutcome → JsValue
  | .resolved v => v
  | .pending => .jsUndefined
  | .failed => .jsUndefined

/-- canImportBundle getter from the source: strict equality with true. -/
def canImportBundle (o : Oracle) (backend : String) : Bool :=
  getCanCreate (o (importBundlePath backend)) == .jsTrue

/-- canGenerateIssuerRoot getter from the source. -/
def canGenerateIssuerRoot (o : Oracle) (backend ty : String) : Bool :=
  getCanCreate (o (generateIssuerRootPath backend ty)) == .jsTrue

/-- canGenerateIssuerIntermediate getter from the source. -/
def canGenerateIssuerIntermediate (o : Oracle) (backend ty : String) : Bool :=
  getCanCreate (o (generateIssuerCsrPath backend ty)) == .jsTrue

/-- canCrossSign getter from the source. -/
def canCrossSign (o : Oracle) (backend : String) : Bool :=
  getCanCreate (o (crossSignPath backend)) == .jsTrue

/-! ## Helper lemmas -/

lemma present_eq_false_iff (v : Option String) :
    present v = false ↔ (v = none ∨ v = some "") := by
  cases v <;> simp [present]

lemma issuerNameValidator_eq_false_iff (m : ActionConfig) :
    issuerNameValidator m = false ↔
      ((m.actionType = some "generate-root" ∨ m.actionType = some "rotate-root")
        ∧ m.issuerName = some "default") := by
  unfold issuerNameValidator
  by_cases h : ((m.actionType == some "generate-root" || m.actionType == some "rotate-root")
      && m.issuerName == some "default") = true
  · simp only [if_pos h]
    simp only [Bool.and_eq_true, Bool.or_eq_true, beq_iff_eq] at h
    simpa using h
  · simp only [if_neg h]
    simp only [Bool.and_eq_true, Bool.or_eq_true, beq_iff_eq] at h
    simpa using h

lemma keyNameValidator_eq_false_iff (m : ActionConfig) :
    keyNameValidator m = false ↔ m.keyName = some "default" := by
  unfold keyNameValidator
  by_cases h : (m.keyName == some "default") = true
  · simp only [if_pos h]
    simpa using h
  · simp only [if_neg h]
    simp only [beq_iff_eq] at h
    simpa using h

lemma mem_validate_iff (m : ActionConfig) (f : Failure) :
    f ∈ validate m ↔
      (present m.type = false ∧ f = { field := "type", kind := .MissingRequiredField })
      ∨ (present m.commonName = false
          ∧ f = { field := "commonName", kind := .MissingRequiredField })
      ∨ (issuerNameValidator m = false
          ∧ f = { field := "issuerName", kind := .ReservedValue })
      ∨ (keyNameValidator m = false
          ∧ f = { field := "keyName", kind := .ReservedValue }) := by
  unfold validate
  cases h1 : present m.type <;> cases h2 : present m.commonName <;>
    cases h3 : issuerNameValidator m <;> cases h4 : keyNameValidator m <;>
      simp [h1, h2, h3, h4, or_comm, or_assoc, or_left_comm]

lemma reportsFailure_eq_true_iff (m : ActionConfig) (fld : String) (k : FailureKind) :
    reportsFailure m fld k = true ↔ ({ field := fld, kind := k } : Failure) ∈ validate m := by
  simp only [reportsFailure, List.any_eq_true, Bool.and_eq_true, beq_iff_eq]
  constructor
  · rintro ⟨f, hf, h1, h2⟩
    cases f
    cases h1
    cases h2
    exact hf
  · intro h
    exact ⟨_, h, rfl, rfl⟩

lemma hasFailureFor_eq_true_iff (m : ActionConfig) (fld : String) :
    hasFailureFor m fld = true ↔ ∃ f ∈ validate m, f.field = fld := by
  simp [hasFailureFor, List.any_eq_true]

lemma getCanCreate_beq_true_iff (r : OracleOutcome) :
    (getCanCreate r == JsValue.jsTrue) = true ↔ r = .resolved .jsTrue := by
  cases r with
  | resolved v => cases v <;> simp [getCanCreate]
  | pending => simp [getCanCreate]
  | failed => simp [getCanCreate]

/-! ## Claim theorems -/

/-- Claim C1: the validation evaluator reports a ReservedValue failure for
issuerName if and only if actionType is generate-root or rotate-root and
issuerName equals the literal string default; in particular an
import-bundle record with issuerName default produces no issuerName
failure, since import-bundle satisfies neither disjunct. -/
theorem C1_issuerName_reserved (m : ActionConfig) :
    reportsFailure m "issuerName" FailureKind.ReservedValue = true ↔
      ((m.actionType = some "generate-root" ∨ m.actionType = some "rotate-root")
        ∧ m.issuerName = some "default") := by
  rw [reportsFailure_eq_true_iff, mem_validate_iff, ← issuerNameValidator_eq_false_iff]
  simp [Failure.mk.injEq]

/-- Claim C2: the validation evaluator reports a ReservedValue failure for
keyName if and only if keyName equals the literal string default, for every
value of actionType. -/
theorem C2_keyName_reserved (m : ActionConfig) :
    reportsFailure m "keyName" FailureKind.ReservedValue = true ↔
      m.keyName = some "default" := by
  rw [reportsFailure_eq_true_iff, mem_validate_iff, ← keyNameValidator_eq_false_iff]
  simp [Failure.mk.injEq]

/-- Claim C3: each capability flag is true exactly when the oracle resolved
the corresponding path to a result whose canCreate value is strictly the
boolean true; any other outcome, a pending lookup or a failed resolution
included, yields false, and each getter is a total boolean function, so no
exception reaches the caller. -/
theorem C3_capability_flags (o : Oracle) (backend ty : String) :
    (canImportBundle o backend = true
        ↔ o (importBundlePath backend) = .resolved .jsTrue)
    ∧ (canGenerateIssuerRoot o backend ty = true
        ↔ o (generateIssuerRootPath backend ty) = .resolved .jsTrue)
    ∧ (canGenerateIssuerIntermediate o backend ty = true
        ↔ o (generateIssuerCsrPath backend ty) = .resolved .jsTrue)
    ∧ (canCrossSign o backend = true
        ↔ o (crossSignPath backend) = .resolved .jsTrue) :=
  ⟨getCanCreate_beq_true_iff _, getCanCreate_beq_true_iff _,
    getCanCreate_beq_true_iff _, getCanCreate_beq_true_iff _⟩

/-- Claim C4: the evaluator reports a MissingRequiredField failure for type
exactly when type is absent or empty, and for commonName exactly when
commonName is absent or empty. -/
theorem C4_required_fields (m : ActionConfig) :
    (reportsFailure m "type" FailureKind.MissingRequiredField = true
        ↔ (m.type = none ∨ m.type = some ""))
    ∧ (reportsFailure m "commonName" FailureKind.MissingRequiredField = true
        ↔ (m.commonName = none ∨ m.commonName = some "")) := by
  constructor <;>
    · rw [reportsFailure_eq_true_iff, mem_validate_iff, ← present_eq_false_iff]
      simp [Failure.mk.injEq]

/-- Claim C5: on a freshly created record the declared defaults hold
exactly: format pem, privateKeyFormat der, keyType rsa, keyBits 0,
maxPathLength -1, excludeCnFromSans false, notBeforeDuration 30s, keyRef
default. -/
theorem C5_declared_defaults :
    freshRecord.format = some "pem"
    ∧ freshRecord.privateKeyFormat = some "der"
    ∧ freshRecord.keyType = some "rsa"
    ∧ freshRecord.keyBits = some "0"
    ∧ freshRecord.maxPathLength = some (-1)
    ∧ freshRecord.excludeCnFromSans = some false
    ∧ freshRecord.notBeforeDuration = some "30s"
    ∧ freshRecord.keyRef = some "default" :=
  ⟨rfl, rfl, rfl, rfl, rfl, rfl, rfl, rfl⟩

/-- Counterexample to claim C6: the source declares addBasicConstraints as
a boolean attribute without a defaultValue option, so a freshly created
record does not hold the value false there. -/
theorem C6_counterexample : ¬ freshRecord.addBasicConstraints = some false := by
  decide

/-- Claim C6 as amended: addBasicConstraints is a boolean attribute with no
declared default; on a freshly created record it is unset. -/
theorem C6_amended_no_default : freshRecord.addBasicConstraints = none := rfl

/-- Claim C7: every failure the evaluator produces is a
MissingRequiredField or a ReservedValue failure attached to one of the
fields type, commonName, issuerName, keyName; no other field, format
included, ever receives a failure. -/
theorem C7_failure_taxonomy (m : ActionConfig) (f : Failure) (h : f ∈ validate m) :
    (f.kind = FailureKind.MissingRequiredField ∨ f.kind = FailureKind.ReservedValue)
    ∧ (f.field = "type" ∨ f.field = "commonName"
        ∨ f.field = "issuerName" ∨ f.field = "keyName") := by
  rw [mem_validate_iff] at h
  rcases h with ⟨-, rfl⟩ | ⟨-, rfl⟩ | ⟨-, rfl⟩ | ⟨-, rfl⟩ <;> simp

/-- Witness for C7 at a concrete input: the empty record produces the type
failure, and the theorem classifies it. -/
theorem C7_failure_taxonomy_witness :
    ({ field := "type", kind := .MissingRequiredField } : Failure) ∈ validate {}
    ∧ ((({ field := "type", kind := .MissingRequiredField } : Failure).kind
            = FailureKind.MissingRequiredField
        ∨ ({ field := "type", kind := .MissingRequiredField } : Failure).kind
            = FailureKind.ReservedValue)
      ∧ (({ field := "type", kind := .MissingRequiredField } : Failure).field = "type"
        ∨ ({ field := "type", kind := .MissingRequiredField } : Failure).field = "commonName"
        ∨ ({ field := "type", kind := .MissingRequiredField } : Failure).field = "issuerName"
        ∨ ({ field := "type", kind := .MissingRequiredField } : Failure).field = "keyName")) :=
  ⟨by decide, C7_failure_taxonomy {} { field := "type", kind := .MissingRequiredField }
    (by decide)⟩

/-- The record of claim C8, with its actionType left free. -/
def c8record (a : Option String) : ActionConfig where
  actionType := a
  type := some "internal"
  commonName := some "example.com"
  issuerName := some "my-issuer"
  keyName := some "my-key"

/-- Claim C8: the record with type internal, commonName example.com,
issuerName my-issuer, keyName my-key and every other field unset validates
with zero failures, whatever its actionType. -/
theorem C8_example_record_valid (a : Option String) : validate (c8record a) = [] := by
  have ht : present (c8record a).type = true := rfl
  have hcn : present (c8record a).commonName = true := rfl
  have hkey : keyNameValidator (c8record a) = true := rfl
  have hiss : issuerNameValidator (c8record a) = true := by
    by_contra hne
    rw [Bool.not_eq_true, issuerNameValidator_eq_false_iff] at hne
    simpa [c8record] using hne.2
  simp [validate, ht, hcn, hiss, hkey]

/-- Claim C9: running the evaluator is side-effect-free, returning the
record with every field unchanged, and the record is valid exactly when the
run produces no failure. -/
theorem C9_side_effect_free (m : ActionConfig) :
    (runValidate m).1 = m ∧ (isValid m = true ↔ (runValidate m).2 = []) :=
  ⟨rfl, by simp [isValid, runValidate]⟩

/-- Claim C10: the reserved-value comparison is exact and case-sensitive,
and the two rules are independent: a record whose keyName is anything but
the exact string default receives no keyName failure, whatever its other
fields hold, and a record whose issuerName is anything but the exact string
default receives no issuerName failure, even under generate-root or
rotate-root. -/
theorem C10_exact_comparison (m : ActionConfig) :
    (m.keyName ≠ some "default" → hasFailureFor m "keyName" = false)
    ∧ (m.issuerName ≠ some "default" → hasFailureFor m "issuerName" = false) := by
  constructor <;> intro hx <;>
    · cases hb : hasFailureFor m _
      · rfl
      · exfalso
        rw [hasFailureFor_eq_true_iff] at hb
        obtain ⟨f, hf, hfld⟩ := hb
        rw [mem_validate_iff] at hf
        rcases hf with ⟨h, rfl⟩ | ⟨h, rfl⟩ | ⟨h, rfl⟩ | ⟨h, rfl⟩ <;>
          simp_all [keyNameValidator_eq_false_iff, issuerNameValidator_eq_false_iff]

/-- A record witnessing C10: a differently cased keyName, an empty
issuerName, and an actionType for which the issuerName rule is active. -/
def c10record : ActionConfig where
  actionType := some "generate-root"
  keyName := some "Default"
  issuerName := some ""

/-- Another record witnessing C10: keyName differs from default while
issuerName equals default under generate-root, so the keyName conclusion
holds on its own hypothesis. -/
def c10gapRecord : ActionConfig where
  actionType := some "generate-root"
  keyName := some "x"
  issuerName := some "default"

/-- Witness for C10 at concrete inputs: keyName x draws no keyName failure
even while issuerName is default under generate-root, and issuerName empty
draws no issuerName failure under generate-root. -/
theorem C10_exact_comparison_witness :
    (c10gapRecord.keyName ≠ some "default"
      ∧ hasFailureFor c10gapRecord "keyName" = false)
    ∧ (c10record.issuerName ≠ some "default"
      ∧ hasFailureFor c10record "issuerName" = false) :=
  ⟨⟨by decide, (C10_exact_comparison c10gapRecord).1 (by decide)⟩,
    ⟨by decide, (C10_exact_comparison c10record).2 (by decide)⟩⟩

end PkiAction
